import Mathlib

/-!
Verification of the documents-api background-job core against its
natural-language specification.

The definitions below are a shallow embedding of the Python source:

* `utils/retry_utils.py` — the backoff-retry primitive (`sync_wrapper`,
  `async_wrapper` inside `retry_with_backoff`);
* `tasks/document_processing.py` — the pipeline orchestrator
  (`process_document_pipeline`) with its per-step retry loops,
  compensation (`delete_document_from_db`) and State Store writes;
* `utils/redis_utils.py` — the State Store client
  (`get_task_state_from_redis`);
* `utils/websocket_handler.py` — the Poller (`_should_send_update`,
  `handle_message`, the error fallback of `poll_single_task`).

External operations (the wrapped function of the retry primitive, the
step implementations, the backing store) are modelled as oracles:
functions from the attempt index to `Except` of an error payload (the
raised exception, carrying its text) or a result.  Durations are
rationals.  Observable side effects (state writes, deletes, sleeps,
step invocations) are collected in an explicit event trace.
-/

set_option autoImplicit false
set_option maxRecDepth 8000

namespace DocumentsApi

universe u v

/-! ## Backoff-retry primitive (`utils/retry_utils.py`) -/

/-- Result of one call to a retry wrapper: the returned value or the
raised error, the number of invocations of the wrapped function, and
the sleeps performed between invocations, in order. -/
structure RetryResult (ε : Type u) (α : Type v) where
  value : Except ε α
  calls : Nat
  sleeps : List ℚ
  deriving Repr

/-- Loop body of `sync_wrapper` in `retry_with_backoff`
(`utils/retry_utils.py`).  `func n` is the outcome of the `n`-th
invocation of the wrapped function (0-based); `remaining` counts the
loop iterations still allowed (`max_retries - attempt`).  On a failure
that `retry_on` rejects, or with no iterations left, the error is
re-raised; otherwise the wrapper sleeps `delay` and retries with
`delay := min (delay * backoff_multiplier) max_delay`. -/
def sync_wrapper_loop {ε : Type u} {α : Type v} (func : Nat → Except ε α)
    (retry_on : ε → Bool) (max_delay backoff_multiplier : ℚ) :
    Nat → Nat → ℚ → RetryResult ε α
  | attempt, remaining, delay =>
    match func attempt with
    | Except.ok v => ⟨Except.ok v, 1, []⟩
    | Except.error e =>
      if retry_on e = false then ⟨Except.error e, 1, []⟩
      else
        match remaining with
        | 0 => ⟨Except.error e, 1, []⟩
        | r + 1 =>
          let rest := sync_wrapper_loop func retry_on max_delay backoff_multiplier
            (attempt + 1) r (min (delay * backoff_multiplier) max_delay)
          ⟨rest.value, rest.calls + 1, delay :: rest.sleeps⟩

/-- The blocking wrapper produced by `retry_with_backoff`: runs the
loop from attempt 0 with `remaining = max_retries` and
`delay = initial_delay`. -/
def sync_wrapper {ε : Type u} {α : Type v} (func : Nat → Except ε α)
    (retry_on : ε → Bool) (max_retries : Nat)
    (initial_delay max_delay backoff_multiplier : ℚ) : RetryResult ε α :=
  sync_wrapper_loop func retry_on max_delay backoff_multiplier 0 max_retries initial_delay

/-- Loop body of `async_wrapper` in `retry_with_backoff`.  The source
duplicates the blocking loop verbatim, with `asyncio.sleep` in place of
`time.sleep`; the embedding records the suspension the same way. -/
def async_wrapper_loop {ε : Type u} {α : Type v} (func : Nat → Except ε α)
    (retry_on : ε → Bool) (max_delay backoff_multiplier : ℚ) :
    Nat → Nat → ℚ → RetryResult ε α
  | attempt, remaining, delay =>
    match func attempt with
    | Except.ok v => ⟨Except.ok v, 1, []⟩
    | Except.error e =>
      if retry_on e = false then ⟨Except.error e, 1, []⟩
      else
        match remaining with
        | 0 => ⟨Except.error e, 1, []⟩
        | r + 1 =>
          let rest := async_wrapper_loop func retry_on max_delay backoff_multiplier
            (attempt + 1) r (min (delay * backoff_multiplier) max_delay)
          ⟨rest.value, rest.calls + 1, delay :: rest.sleeps⟩

/-- The suspending wrapper produced by `retry_with_backoff`. -/
def async_wrapper {ε : Type u} {α : Type v} (func : Nat → Except ε α)
    (retry_on : ε → Bool) (max_retries : Nat)
    (initial_delay max_delay backoff_multiplier : ℚ) : RetryResult ε α :=
  async_wrapper_loop func retry_on max_delay backoff_multiplier 0 max_retries initial_delay

/-- The delay sequence the loop actually sleeps, starting from a given
current delay: each next delay is `min (delay * multiplier) max_delay`. -/
def code_delays (max_delay backoff_multiplier : ℚ) : ℚ → Nat → List ℚ
  | _, 0 => []
  | delay, r + 1 =>
    delay :: code_delays max_delay backoff_multiplier
      (min (delay * backoff_multiplier) max_delay) r

lemma async_wrapper_loop_eq_sync {ε : Type u} {α : Type v}
    (func : Nat → Except ε α) (retry_on : ε → Bool)
    (max_delay backoff_multiplier : ℚ) (attempt remaining : Nat) (delay : ℚ) :
    async_wrapper_loop func retry_on max_delay backoff_multiplier attempt remaining delay
      = sync_wrapper_loop func retry_on max_delay backoff_multiplier attempt remaining delay := by
  induction remaining generalizing attempt delay with
  | zero => simp [async_wrapper_loop, sync_wrapper_loop]
  | succ r ih =>
    rw [async_wrapper_loop, sync_wrapper_loop]
    cases func attempt with
    | ok v => rfl
    | error e =>
      by_cases h : retry_on e = false
      · simp [h]
      · simp [h, ih]

lemma async_wrapper_eq_sync {ε : Type u} {α : Type v}
    (func : Nat → Except ε α) (retry_on : ε → Bool) (max_retries : Nat)
    (initial_delay max_delay backoff_multiplier : ℚ) :
    async_wrapper func retry_on max_retries initial_delay max_delay backoff_multiplier
      = sync_wrapper func retry_on max_retries initial_delay max_delay backoff_multiplier :=
  async_wrapper_loop_eq_sync ..

/-- An operation that fails on every invocation with a retryable error
drives the loop to exhaustion: starting at `attempt` with `remaining`
iterations left, the loop makes `remaining + 1` calls, raises the error
of the final invocation, and sleeps the iterated-clamp delay sequence. -/
lemma sync_wrapper_loop_all_fail {ε : Type u} {α : Type v}
    (errf : Nat → ε) (retry_on : ε → Bool)
    (hr : ∀ n, retry_on (errf n) = true)
    (max_delay backoff_multiplier : ℚ) (remaining : Nat) :
    ∀ (attempt : Nat) (delay : ℚ),
    sync_wrapper_loop (fun n => (Except.error (errf n) : Except ε α)) retry_on
        max_delay backoff_multiplier attempt remaining delay
      = ⟨Except.error (errf (attempt + remaining)), remaining + 1,
         code_delays max_delay backoff_multiplier delay remaining⟩ := by
  induction remaining with
  | zero =>
    intro attempt delay
    rw [sync_wrapper_loop]
    simp only [hr, Bool.true_eq_false, if_false, code_delays]
    rfl
  | succ r ih =>
    intro attempt delay
    rw [sync_wrapper_loop]
    simp only [hr, Bool.true_eq_false, if_false, code_delays]
    rw [ih]
    have h : attempt + 1 + r = attempt + (r + 1) := by omega
    rw [h]

lemma sync_wrapper_all_fail {ε : Type u} {α : Type v}
    (errf : Nat → ε) (retry_on : ε → Bool)
    (hr : ∀ n, retry_on (errf n) = true) (max_retries : Nat)
    (initial_delay max_delay backoff_multiplier : ℚ) :
    sync_wrapper (fun n => (Except.error (errf n) : Except ε α)) retry_on max_retries
        initial_delay max_delay backoff_multiplier
      = ⟨Except.error (errf max_retries), max_retries + 1,
         code_delays max_delay backoff_multiplier initial_delay max_retries⟩ := by
  rw [sync_wrapper, sync_wrapper_loop_all_fail errf retry_on hr]
  rw [Nat.zero_add]

/-- The `k`-th delay (0-based) the loop sleeps: the first sleep is the
initial delay itself, unclamped, and each later one is the clamp
`min (previous * backoff_multiplier) max_delay`. -/
def code_delay (initial_delay max_delay backoff_multiplier : ℚ) : Nat → ℚ
  | 0 => initial_delay
  | k + 1 =>
    min (code_delay initial_delay max_delay backoff_multiplier k * backoff_multiplier) max_delay

lemma code_delay_shift (initial_delay max_delay backoff_multiplier : ℚ) :
    ∀ k, code_delay initial_delay max_delay backoff_multiplier (k + 1)
      = code_delay (min (initial_delay * backoff_multiplier) max_delay)
          max_delay backoff_multiplier k := by
  intro k
  induction k with
  | zero => rfl
  | succ n ih => rw [code_delay, ih, code_delay]

lemma code_delays_get (max_delay backoff_multiplier : ℚ) :
    ∀ (k r : Nat) (d : ℚ), k < r →
    (code_delays max_delay backoff_multiplier d r)[k]?
      = some (code_delay d max_delay backoff_multiplier k) := by
  intro k
  induction k with
  | zero =>
    intro r d hr
    match r, hr with
    | r' + 1, _ => rw [code_delays]; simp [code_delay]
  | succ n ih =>
    intro r d hr
    match r, hr with
    | r' + 1, hr =>
      rw [code_delays, code_delay_shift]
      simpa using ih r' (min (d * backoff_multiplier) max_delay) (by omega)

/-- Under a multiplier at least 1 and an initial delay between 0 and the
cap, the iterated clamp coincides with the closed-form schedule of the
specification. -/
lemma code_delay_closed (initial_delay max_delay backoff_multiplier : ℚ)
    (hm : 1 ≤ backoff_multiplier) (h0 : 0 ≤ initial_delay)
    (hiM : initial_delay ≤ max_delay) :
    ∀ k, code_delay initial_delay max_delay backoff_multiplier k
      = min (initial_delay * backoff_multiplier ^ k) max_delay := by
  intro k
  induction k with
  | zero =>
    rw [code_delay, pow_zero, mul_one, min_eq_left hiM]
  | succ n ih =>
    rw [code_delay, ih]
    rcases le_total (initial_delay * backoff_multiplier ^ n) max_delay with h | h
    · rw [min_eq_left h, pow_succ, ← mul_assoc]
    · have hMn : 0 ≤ max_delay := le_trans h0 hiM
      have hpow : (0:ℚ) ≤ initial_delay * backoff_multiplier ^ n :=
        mul_nonneg h0 (pow_nonneg (le_trans zero_le_one hm) n)
      rw [min_eq_right h]
      have h1 : max_delay ≤ max_delay * backoff_multiplier := by nlinarith
      have h2 : max_delay ≤ initial_delay * backoff_multiplier ^ (n + 1) := by
        rw [pow_succ, ← mul_assoc]
        nlinarith
      rw [min_eq_right h1, min_eq_right h2]

/-- C1: an operation that fails on every invocation with an error the
retryability predicate accepts, wrapped with `max_retries = 3`, is
invoked exactly 4 times, after which the last error is raised; the
suspending wrapper behaves identically to the blocking one. -/
theorem c1_retry_exhaustion_four_calls {ε : Type u} {α : Type v}
    (errf : Nat → ε) (retry_on : ε → Bool)
    (hr : ∀ n, retry_on (errf n) = true)
    (initial_delay max_delay backoff_multiplier : ℚ) :
    (sync_wrapper (fun n => (Except.error (errf n) : Except ε α)) retry_on 3
        initial_delay max_delay backoff_multiplier).calls = 4
    ∧ (sync_wrapper (fun n => (Except.error (errf n) : Except ε α)) retry_on 3
        initial_delay max_delay backoff_multiplier).value = Except.error (errf 3)
    ∧ async_wrapper (fun n => (Except.error (errf n) : Except ε α)) retry_on 3
        initial_delay max_delay backoff_multiplier
      = sync_wrapper (fun n => (Except.error (errf n) : Except ε α)) retry_on 3
        initial_delay max_delay backoff_multiplier := by
  rw [sync_wrapper_all_fail errf retry_on hr, async_wrapper_eq_sync,
    sync_wrapper_all_fail errf retry_on hr]
  exact ⟨rfl, rfl, rfl⟩

/-- Witness for C1 at a concrete always-failing retryable operation. -/
theorem c1_retry_exhaustion_four_calls_witness :
    (sync_wrapper (fun _ => (Except.error () : Except Unit Unit)) (fun _ => true) 3
        1 60 2).calls = 4
    ∧ (sync_wrapper (fun _ => (Except.error () : Except Unit Unit)) (fun _ => true) 3
        1 60 2).value = Except.error ()
    ∧ async_wrapper (fun _ => (Except.error () : Except Unit Unit)) (fun _ => true) 3
        1 60 2
      = sync_wrapper (fun _ => (Except.error () : Except Unit Unit)) (fun _ => true) 3
        1 60 2 :=
  c1_retry_exhaustion_four_calls (fun _ => ()) (fun _ => true) (fun _ => rfl) 1 60 2

/-- C9: when the first invocation fails with an error the retryability
predicate rejects, the wrapper invokes the operation exactly once and
re-raises that original error unchanged, whatever the retry budget;
identically for the suspending wrapper. -/
theorem c9_nonretryable_single_call {ε : Type u} {α : Type v}
    (func : Nat → Except ε α) (retry_on : ε → Bool) (e : ε)
    (h0 : func 0 = Except.error e) (hr : retry_on e = false) (max_retries : Nat)
    (initial_delay max_delay backoff_multiplier : ℚ) :
    sync_wrapper func retry_on max_retries initial_delay max_delay backoff_multiplier
      = ⟨Except.error e, 1, []⟩
    ∧ async_wrapper func retry_on max_retries initial_delay max_delay backoff_multiplier
      = ⟨Except.error e, 1, []⟩ := by
  constructor
  · rw [sync_wrapper, sync_wrapper_loop, h0]
    simp [hr]
  · rw [async_wrapper_eq_sync, sync_wrapper, sync_wrapper_loop, h0]
    simp [hr]

/-- Witness for C9 at a concrete non-retryable failing operation. -/
theorem c9_nonretryable_single_call_witness :
    sync_wrapper (fun _ => (Except.error "unsupported format" : Except String Unit))
        (fun _ => false) 3 1 60 2
      = ⟨Except.error "unsupported format", 1, []⟩
    ∧ async_wrapper (fun _ => (Except.error "unsupported format" : Except String Unit))
        (fun _ => false) 3 1 60 2
      = ⟨Except.error "unsupported format", 1, []⟩ :=
  c9_nonretryable_single_call (fun _ => Except.error "unsupported format")
    (fun _ => false) "unsupported format" rfl rfl 3 1 60 2

/-- C8 counterexample: with `initial_delay = 100 > max_delay = 10`,
`backoff_multiplier = 2` and an always-failing retryable operation, the
sleep before the second invocation (`k = 1`) lasts 100 seconds, while
the claimed closed form `min (initial_delay * multiplier ^ (k-1))
max_delay` predicts 10: the first sleep is never clamped by the code. -/
theorem c8_backoff_schedule_counterexample :
    (sync_wrapper (fun _ => (Except.error () : Except Unit Unit)) (fun _ => true) 3
        100 10 2).sleeps[0]? = some 100
    ∧ min ((100 : ℚ) * 2 ^ 0) 10 = 10
    ∧ (100 : ℚ) ≠ 10 := by
  refine ⟨?_, by norm_num, by norm_num⟩
  rw [sync_wrapper_all_fail (fun _ => ()) (fun _ => true) (fun _ => rfl)]
  rw [code_delays_get _ _ 0 3 _ (by omega)]
  rfl

/-- C8 amended: for an always-failing retryable operation, the sleep
before the `(k+1)`-th invocation is the iterated-clamp delay
`code_delay k` (first sleep the raw initial delay, then
`min (previous * multiplier) max_delay`); when the multiplier is at
least 1 and `0 ≤ initial_delay ≤ max_delay`, this coincides with the
closed form `min (initial_delay * multiplier ^ k) max_delay`. -/
theorem c8_backoff_schedule {ε : Type u} {α : Type v}
    (errf : Nat → ε) (retry_on : ε → Bool)
    (hr : ∀ n, retry_on (errf n) = true) (max_retries k : Nat)
    (hk : k < max_retries) (initial_delay max_delay backoff_multiplier : ℚ)
    (hm : 1 ≤ backoff_multiplier) (h0 : 0 ≤ initial_delay)
    (hiM : initial_delay ≤ max_delay) :
    (sync_wrapper (fun n => (Except.error (errf n) : Except ε α)) retry_on max_retries
        initial_delay max_delay backoff_multiplier).sleeps[k]?
      = some (code_delay initial_delay max_delay backoff_multiplier k)
    ∧ code_delay initial_delay max_delay backoff_multiplier k
      = min (initial_delay * backoff_multiplier ^ k) max_delay := by
  constructor
  · rw [sync_wrapper_all_fail errf retry_on hr]
    exact code_delays_get _ _ k max_retries _ hk
  · exact code_delay_closed _ _ _ hm h0 hiM k

/-- Witness for the amended C8 schedule at concrete parameters. -/
theorem c8_backoff_schedule_witness :
    (sync_wrapper (fun _ => (Except.error () : Except Unit Unit)) (fun _ => true) 3
        1 60 2).sleeps[1]? = some (code_delay 1 60 2 1)
    ∧ code_delay 1 60 2 1 = min ((1 : ℚ) * 2 ^ 1) 60 :=
  c8_backoff_schedule (fun _ => ()) (fun _ => true) (fun _ => rfl) 3 1 (by omega)
    1 60 2 (by norm_num) (by norm_num) (by norm_num)

/-! ## Pipeline orchestrator (`tasks/document_processing.py`) -/

/-- Maximum retry attempts per pipeline step (`MAX_RETRIES` in the
source). -/
def MAX_RETRIES : Nat := 3

/-- The `meta` dictionary written with a task state: a step index and a
human-readable message for PROCESSING snapshots, an error string for
FAILURE snapshots. -/
structure StateMeta where
  step : Option Nat
  message : Option String
  error : Option String
  deriving Repr, DecidableEq

/-- Outcome of `_extract_document_info_impl`: the extracted content,
the `success` flag, and the token usage (the AI response payload is
opaque to the orchestrator and omitted). -/
structure ExtractionResult where
  content : String
  success : Bool
  input_tokens : Nat
  output_tokens : Nat
  deriving Repr, DecidableEq

/-- Outcome of `_classify_document_impl`: category fields (absent keys
fall back to defaults at the use site, as in the source) and token
usage. -/
structure ClassificationResult where
  category : Option String
  subCategory : Option String
  confidence : Option ℚ
  input_tokens : Nat
  output_tokens : Nat
  deriving Repr, DecidableEq

/-- The result payload of a successful pipeline run (`result_data` in
the source; the opaque AI response field is omitted). -/
structure ResultData where
  document_id : String
  content : String
  category : String
  subCategory : String
  confidence : ℚ
  embedding : Option String
  input_tokens : Nat
  output_tokens : Nat
  deriving Repr, DecidableEq

/-- Observable side effects of one pipeline run, in order:
`self.update_state` calls, `set_task_state_in_redis` writes, sleeps,
invocations of a step implementation, and the compensating
`delete_document_from_db`. -/
inductive PEvent where
  | updateState (state : String) (meta : StateMeta)
  | redisSet (task_id : String) (state : String) (meta : StateMeta)
      (result : Option ResultData)
  | sleepFor (seconds : ℚ)
  | stepCall (step_name : String) (attempt : Nat)
  | deleteDoc (document_id : String)
  deriving Repr, DecidableEq

/-- A pipeline run: the value returned to the work queue (or the
message of the raised exception) and the event trace. -/
structure PipelineRun where
  result : Except String ResultData
  events : List PEvent
  deriving Repr

/-- Python `str.strip()`: remove leading and trailing whitespace. -/
def py_strip (s : String) : String :=
  ⟨((s.data.dropWhile Char.isWhitespace).reverse.dropWhile Char.isWhitespace).reverse⟩

lemma py_strip_length_le (s : String) : (py_strip s).length ≤ s.length := by
  have h1 : (s.data.dropWhile Char.isWhitespace).length ≤ s.data.length :=
    (List.dropWhile_suffix _).sublist.length_le
  have h2 : (((s.data.dropWhile Char.isWhitespace).reverse.dropWhile
      Char.isWhitespace)).length ≤ (s.data.dropWhile Char.isWhitespace).reverse.length :=
    (List.dropWhile_suffix _).sublist.length_le
  simp only [py_strip, String.length, List.length_reverse] at *
  omega

/-- One per-step retry loop of `process_document_pipeline`: invoke the
step implementation; on failure sleep `min (2 ^ attempt) 60` (with the
incremented attempt counter, as in the source) and retry.  `remaining`
counts the retries still allowed (`MAX_RETRIES - attempt` in the
source), so a run from `remaining = MAX_RETRIES` makes at most
`MAX_RETRIES + 1` attempts.  Exhaustion yields `none`: the source then
raises for a required step and continues for the best-effort Embed
step. -/
def step_loop {β : Type u} (step_name : String) (oracle : Nat → Except String β) :
    Nat → Nat → Option β × List PEvent
  | attempt, remaining =>
    match oracle attempt with
    | Except.ok v => (some v, [PEvent.stepCall step_name attempt])
    | Except.error _ =>
      match remaining with
      | 0 => (none, [PEvent.stepCall step_name attempt])
      | r + 1 =>
        let rest := step_loop step_name oracle (attempt + 1) r
        (rest.1, PEvent.stepCall step_name attempt
          :: PEvent.sleepFor (min ((2 : ℚ) ^ (attempt + 1)) 60) :: rest.2)

def meta_extract : StateMeta := ⟨some 1, some "Extracting document information...", none⟩

def meta_classify : StateMeta := ⟨some 2, some "Classifying document...", none⟩

def meta_embed : StateMeta := ⟨some 3, some "Generating embeddings...", none⟩

def meta_skip_embed : StateMeta :=
  ⟨some 3, some "Skipping embeddings (insufficient content)...", none⟩

def meta_db : StateMeta := ⟨some 4, some "Saving document data...", none⟩

def meta_final : StateMeta := ⟨some 5, some "Finalizing...", none⟩

def meta_success : StateMeta := ⟨some 7, some "Successfully Uploaded", none⟩

/-- The constant message of the exception the pipeline raises on a
fatal failure (`error_msg` in the handler). -/
def pipeline_error_msg : String := "Document processing pipeline failed after all retries"

/-- `failure_meta` of the handler: a stable error string and message,
independent of the caught exception. -/
def meta_failure : StateMeta :=
  ⟨none, some "Document processing failed after all retries", some pipeline_error_msg⟩

/-- A `self.update_state` call followed by the matching
`set_task_state_in_redis` write, as the source always pairs them for
PROCESSING snapshots. -/
def state_events (task_id state : String) (m : StateMeta) : List PEvent :=
  [PEvent.updateState state m, PEvent.redisSet task_id state m none]

/-- The `except` handler of `process_document_pipeline`: invoke the
compensating `delete_document_from_db document_id`, write the FAILURE
snapshot (both `self.update_state` and Redis), and re-raise the stable
pipeline error message. -/
def fail_trace (document_id task_id : String) (events : List PEvent) : PipelineRun :=
  ⟨Except.error pipeline_error_msg,
    events ++ (PEvent.deleteDoc document_id :: state_events task_id "FAILURE" meta_failure)⟩

/-- `process_document_pipeline` of `tasks/document_processing.py`,
with the four step implementations as oracles from the attempt index to
an outcome (the error value carries the raised exception text).  The
Embed step runs only when the content is non-empty and its stripped
length exceeds 100; its exhaustion yields `none` without failing the
run.  Required-step exhaustion, or an extraction result with
`success = false`, lands in the `except` handler `fail_trace`. -/
def process_document_pipeline (document_id task_id : String)
    (extract : Nat → Except String ExtractionResult)
    (classify : Nat → Except String ClassificationResult)
    (embed : Nat → Except String String)
    (db_write : Nat → Except String Unit) : PipelineRun :=
  let ev1 := state_events task_id "PROCESSING" meta_extract
  match step_loop "extract" extract 0 MAX_RETRIES with
  | (none, extEv) => fail_trace document_id task_id (ev1 ++ extEv)
  | (some er, extEv) =>
    if er.success = false then fail_trace document_id task_id (ev1 ++ extEv)
    else
      let ev2 := state_events task_id "PROCESSING" meta_classify
      match step_loop "classify" classify 0 MAX_RETRIES with
      | (none, clsEv) => fail_trace document_id task_id (ev1 ++ extEv ++ ev2 ++ clsEv)
      | (some cr, clsEv) =>
        let ev3 := state_events task_id "PROCESSING" meta_embed
        let embedRun : Option String × List PEvent :=
          if er.content ≠ "" ∧ (py_strip er.content).length > 100 then
            step_loop "embed" embed 0 MAX_RETRIES
          else
            (none, state_events task_id "PROCESSING" meta_skip_embed)
        let ev4 := state_events task_id "PROCESSING" meta_db
        match step_loop "db_write" db_write 0 MAX_RETRIES with
        | (none, dbEv) =>
          fail_trace document_id task_id
            (ev1 ++ extEv ++ ev2 ++ clsEv ++ ev3 ++ embedRun.2 ++ ev4 ++ dbEv)
        | (some _, dbEv) =>
          let result_data : ResultData :=
            { document_id := document_id
              content := er.content
              category := cr.category.getD "Miscellaneous"
              subCategory := cr.subCategory.getD "General Contract"
              confidence := cr.confidence.getD (1/2)
              embedding := embedRun.1
              input_tokens := er.input_tokens + cr.input_tokens
              output_tokens := er.output_tokens + cr.output_tokens }
          ⟨Except.ok result_data,
            ev1 ++ extEv ++ ev2 ++ clsEv ++ ev3 ++ embedRun.2 ++ ev4 ++ dbEv
              ++ state_events task_id "PROCESSING" meta_final
              ++ [PEvent.sleepFor (1/2),
                  PEvent.redisSet task_id "SUCCESS" meta_success (some result_data)]⟩

/-- A step implementation that fails on every attempt exhausts its
retry loop. -/
lemma step_loop_all_fail {β : Type u} (step_name : String)
    (oracle : Nat → Except String β)
    (hfail : ∀ n, ∃ e, oracle n = Except.error e) :
    ∀ (remaining attempt : Nat), (step_loop step_name oracle attempt remaining).1 = none := by
  intro remaining
  induction remaining with
  | zero =>
    intro attempt
    obtain ⟨e, he⟩ := hfail attempt
    rw [step_loop, he]
  | succ r ih =>
    intro attempt
    obtain ⟨e, he⟩ := hfail attempt
    rw [step_loop, he]
    simpa using ih (attempt + 1)

/-- The events a step retry loop emits are exactly step invocations
(under the loop's own step name) and backoff sleeps. -/
lemma mem_step_loop_events {β : Type u} (step_name : String)
    (oracle : Nat → Except String β) :
    ∀ (remaining attempt : Nat), ∀ ev ∈ (step_loop step_name oracle attempt remaining).2,
      (∃ k, ev = PEvent.stepCall step_name k) ∨ (∃ d, ev = PEvent.sleepFor d) := by
  intro remaining
  induction remaining with
  | zero =>
    intro attempt ev hev
    rw [step_loop] at hev
    rcases hor : oracle attempt with e | v <;> rw [hor] at hev <;> simp at hev <;>
      exact Or.inl ⟨attempt, hev⟩
  | succ r ih =>
    intro attempt ev hev
    rw [step_loop] at hev
    rcases hor : oracle attempt with e | v <;> rw [hor] at hev
    · simp only [List.mem_cons] at hev
      rcases hev with h | h | h
      · exact Or.inl ⟨attempt, h⟩
      · exact Or.inr ⟨_, h⟩
      · exact ih (attempt + 1) ev (by simpa using h)
    · simp at hev
      exact Or.inl ⟨attempt, hev⟩

lemma no_redisSet_in_step_loop {β : Type u} (step_name : String)
    (oracle : Nat → Except String β) (remaining attempt : Nat)
    (tid st : String) (m : StateMeta) (r : Option ResultData) :
    PEvent.redisSet tid st m r ∉ (step_loop step_name oracle attempt remaining).2 := by
  intro h
  rcases mem_step_loop_events step_name oracle remaining attempt _ h with ⟨k, hk⟩ | ⟨d, hd⟩
  · simp at hk
  · simp at hd

lemma no_deleteDoc_in_step_loop {β : Type u} (step_name : String)
    (oracle : Nat → Except String β) (remaining attempt : Nat) (id : String) :
    PEvent.deleteDoc id ∉ (step_loop step_name oracle attempt remaining).2 := by
  intro h
  rcases mem_step_loop_events step_name oracle remaining attempt _ h with ⟨k, hk⟩ | ⟨d, hd⟩
  · simp at hk
  · simp at hd

lemma stepCall_name_of_mem {β : Type u} (step_name : String)
    (oracle : Nat → Except String β) (remaining attempt : Nat) (nm : String) (k : Nat)
    (h : PEvent.stepCall nm k ∈ (step_loop step_name oracle attempt remaining).2) :
    nm = step_name := by
  rcases mem_step_loop_events step_name oracle remaining attempt _ h with ⟨j, hj⟩ | ⟨d, hd⟩
  · exact (PEvent.stepCall.injEq .. ▸ hj).1
  · simp at hd

/-- Any run that a required-step exhaustion aborts lands in the
`except` handler. -/
lemma pipeline_fails_of_step_exhaustion (document_id task_id : String)
    (extract : Nat → Except String ExtractionResult)
    (classify : Nat → Except String ClassificationResult)
    (embed : Nat → Except String String)
    (db_write : Nat → Except String Unit)
    (hfail : (∀ n, ∃ e, extract n = Except.error e)
      ∨ (∀ n, ∃ e, classify n = Except.error e)
      ∨ (∀ n, ∃ e, db_write n = Except.error e)) :
    ∃ evs, process_document_pipeline document_id task_id extract classify embed db_write
      = fail_trace document_id task_id evs := by
  unfold process_document_pipeline
  rcases hE : step_loop "extract" extract 0 MAX_RETRIES with ⟨eo, eev⟩
  cases eo with
  | none => exact ⟨_, rfl⟩
  | some er =>
    rcases hfail with hf | hf | hf
    · have h1 := step_loop_all_fail "extract" extract hf MAX_RETRIES 0
      rw [hE] at h1
      simp at h1
    · by_cases hs : er.success = false
      · simp only [hs, if_true]
        exact ⟨_, rfl⟩
      · simp only [hs, if_false]
        have h1 := step_loop_all_fail "classify" classify hf MAX_RETRIES 0
        rcases hC : step_loop "classify" classify 0 MAX_RETRIES with ⟨co, cev⟩
        rw [hC] at h1
        simp at h1
        rw [h1]
        exact ⟨_, rfl⟩
    · by_cases hs : er.success = false
      · simp only [hs, if_true]
        exact ⟨_, rfl⟩
      · simp only [hs, if_false]
        rcases hC : step_loop "classify" classify 0 MAX_RETRIES with ⟨co, cev⟩
        cases co with
        | none => exact ⟨_, rfl⟩
        | some cr =>
          have h1 := step_loop_all_fail "db_write" db_write hf MAX_RETRIES 0
          rcases hD : step_loop "db_write" db_write 0 MAX_RETRIES with ⟨do_, dev⟩
          rw [hD] at h1
          simp at h1
          rw [h1]
          exact ⟨_, rfl⟩

/-- C2: when a required step (Extract, Classify, or the database
Persist write) fails on all of its `MAX_RETRIES + 1` attempts, the
orchestrator invokes the compensating delete with the document id of
the job, writes a FAILURE snapshot to the State Store whose reason is
the stable non-empty pipeline error string, and raises that error to
the work queue. -/
theorem c2_step_exhaustion_compensates_and_fails (document_id task_id : String)
    (extract : Nat → Except String ExtractionResult)
    (classify : Nat → Except String ClassificationResult)
    (embed : Nat → Except String String)
    (db_write : Nat → Except String Unit)
    (hfail : (∀ n, ∃ e, extract n = Except.error e)
      ∨ (∀ n, ∃ e, classify n = Except.error e)
      ∨ (∀ n, ∃ e, db_write n = Except.error e)) :
    (process_document_pipeline document_id task_id extract classify embed db_write).result
        = Except.error pipeline_error_msg
    ∧ PEvent.deleteDoc document_id
        ∈ (process_document_pipeline document_id task_id extract classify embed db_write).events
    ∧ PEvent.redisSet task_id "FAILURE" meta_failure none
        ∈ (process_document_pipeline document_id task_id extract classify embed db_write).events
    ∧ meta_failure.error = some pipeline_error_msg
    ∧ pipeline_error_msg ≠ "" := by
  obtain ⟨evs, heq⟩ := pipeline_fails_of_step_exhaustion document_id task_id
    extract classify embed db_write hfail
  rw [heq]
  refine ⟨rfl, ?_, ?_, rfl, by decide⟩ <;> simp [fail_trace, state_events]

/-- Witness for C2: the Persist write fails on every attempt while the
other steps succeed. -/
theorem c2_step_exhaustion_compensates_and_fails_witness :
    (process_document_pipeline "doc1" "task1"
        (fun _ => Except.ok ⟨"text", true, 0, 0⟩)
        (fun _ => Except.ok ⟨some "Legal", some "General Contract", some 1, 0, 0⟩)
        (fun _ => Except.ok "emb")
        (fun _ => Except.error "connection refused")).result
        = Except.error pipeline_error_msg
    ∧ PEvent.deleteDoc "doc1"
        ∈ (process_document_pipeline "doc1" "task1"
            (fun _ => Except.ok ⟨"text", true, 0, 0⟩)
            (fun _ => Except.ok ⟨some "Legal", some "General Contract", some 1, 0, 0⟩)
            (fun _ => Except.ok "emb")
            (fun _ => Except.error "connection refused")).events
    ∧ PEvent.redisSet "task1" "FAILURE" meta_failure none
        ∈ (process_document_pipeline "doc1" "task1"
            (fun _ => Except.ok ⟨"text", true, 0, 0⟩)
            (fun _ => Except.ok ⟨some "Legal", some "General Contract", some 1, 0, 0⟩)
            (fun _ => Except.ok "emb")
            (fun _ => Except.error "connection refused")).events
    ∧ meta_failure.error = some pipeline_error_msg
    ∧ pipeline_error_msg ≠ "" :=
  c2_step_exhaustion_compensates_and_fails "doc1" "task1"
    (fun _ => Except.ok ⟨"text", true, 0, 0⟩)
    (fun _ => Except.ok ⟨some "Legal", some "General Contract", some 1, 0, 0⟩)
    (fun _ => Except.ok "emb")
    (fun _ => Except.error "connection refused")
    (Or.inr (Or.inr (fun _ => ⟨"connection refused", rfl⟩)))

/-- C4: when the Embed step fails on all of its attempts while the
required steps succeed (and the content is long enough for Embed to
run at all), the pipeline does not abort: it returns a result whose
embedding field is `none`, writes the SUCCESS snapshot, performs no
compensating delete, and writes no FAILURE snapshot. -/
theorem c4_embed_exhaustion_is_non_fatal (document_id task_id : String)
    (extract : Nat → Except String ExtractionResult)
    (classify : Nat → Except String ClassificationResult)
    (embed : Nat → Except String String)
    (db_write : Nat → Except String Unit)
    (er : ExtractionResult) (cr : ClassificationResult)
    (hext : (step_loop "extract" extract 0 MAX_RETRIES).1 = some er)
    (hsucc : er.success = true)
    (hcontent : er.content ≠ "" ∧ (py_strip er.content).length > 100)
    (hcls : (step_loop "classify" classify 0 MAX_RETRIES).1 = some cr)
    (hemb : ∀ n, ∃ e, embed n = Except.error e)
    (hdb : (step_loop "db_write" db_write 0 MAX_RETRIES).1 = some ()) :
    ∃ rd : ResultData,
      (process_document_pipeline document_id task_id extract classify embed db_write).result
          = Except.ok rd
      ∧ rd.embedding = none
      ∧ PEvent.redisSet task_id "SUCCESS" meta_success (some rd)
          ∈ (process_document_pipeline document_id task_id extract classify embed db_write).events
      ∧ (∀ id, PEvent.deleteDoc id
          ∉ (process_document_pipeline document_id task_id extract classify embed db_write).events)
      ∧ (∀ m r, PEvent.redisSet task_id "FAILURE" m r
          ∉ (process_document_pipeline document_id task_id extract classify embed db_write).events) := by
  have hembnone := step_loop_all_fail "embed" embed hemb MAX_RETRIES 0
  have hdel_e := no_deleteDoc_in_step_loop "extract" extract MAX_RETRIES 0
  have hdel_c := no_deleteDoc_in_step_loop "classify" classify MAX_RETRIES 0
  have hdel_m := no_deleteDoc_in_step_loop "embed" embed MAX_RETRIES 0
  have hdel_d := no_deleteDoc_in_step_loop "db_write" db_write MAX_RETRIES 0
  have hrs_e := no_redisSet_in_step_loop "extract" extract MAX_RETRIES 0
  have hrs_c := no_redisSet_in_step_loop "classify" classify MAX_RETRIES 0
  have hrs_m := no_redisSet_in_step_loop "embed" embed MAX_RETRIES 0
  have hrs_d := no_redisSet_in_step_loop "db_write" db_write MAX_RETRIES 0
  unfold process_document_pipeline
  rcases hE : step_loop "extract" extract 0 MAX_RETRIES with ⟨eo, eev⟩
  rw [hE] at hext hdel_e hrs_e
  simp only at hext
  subst hext
  rcases hC : step_loop "classify" classify 0 MAX_RETRIES with ⟨co, cev⟩
  rw [hC] at hcls hdel_c hrs_c
  simp only at hcls
  subst hcls
  rcases hEm : step_loop "embed" embed 0 MAX_RETRIES with ⟨emo, emev⟩
  rw [hEm] at hembnone hdel_m hrs_m
  simp only at hembnone
  subst hembnone
  rcases hD : step_loop "db_write" db_write 0 MAX_RETRIES with ⟨dbo, dbev⟩
  rw [hD] at hdb hdel_d hrs_d
  simp only at hdb
  subst hdb
  simp only [hsucc, Bool.true_eq_false, if_false, if_pos hcontent]
  refine ⟨_, rfl, rfl, ?_, ?_, ?_⟩
  · simp [state_events]
  · intro id h
    simp only [state_events, List.mem_append, List.mem_cons, List.mem_singleton,
      List.not_mem_nil, or_false] at h
    rcases h with ((((((h | h) | h) | h) | h) | h) | h) | h <;>
      first
        | (exact hdel_e id (by simpa using h))
        | (exact hdel_c id (by simpa using h))
        | (exact hdel_m id (by simpa using h))
        | (exact hdel_d id (by simpa using h))
        | simp_all
  · intro m r h
    simp only [state_events, List.mem_append, List.mem_cons, List.mem_singleton,
      List.not_mem_nil, or_false] at h
    rcases h with ((((((h | h) | h) | h) | h) | h) | h) | h <;>
      first
        | (exact hrs_e task_id "FAILURE" m r (by simpa using h))
        | (exact hrs_c task_id "FAILURE" m r (by simpa using h))
        | (exact hrs_m task_id "FAILURE" m r (by simpa using h))
        | (exact hrs_d task_id "FAILURE" m r (by simpa using h))
        | simp_all

/-- Witness for C4 at concrete oracles: Embed always fails, the other
steps succeed on content long enough to attempt embedding. -/
theorem c4_embed_exhaustion_is_non_fatal_witness :
    ∃ rd : ResultData,
      (process_document_pipeline "doc1" "task1"
          (fun _ => Except.ok ⟨"aaaaaaaaaaaaaaaaaaaaaaaaaaaaaaaaaaaaaaaaaaaaaaaaaaaaaaaaaaaaaaaaaaaaaaaaaaaaaaaaaaaaaaaaaaaaaaaaaaaaa", true, 0, 0⟩)
          (fun _ => Except.ok ⟨some "Legal", some "General Contract", some 1, 0, 0⟩)
          (fun _ => Except.error "rate limit")
          (fun _ => Except.ok ())).result = Except.ok rd
      ∧ rd.embedding = none
      ∧ PEvent.redisSet "task1" "SUCCESS" meta_success (some rd)
          ∈ (process_document_pipeline "doc1" "task1"
              (fun _ => Except.ok ⟨"aaaaaaaaaaaaaaaaaaaaaaaaaaaaaaaaaaaaaaaaaaaaaaaaaaaaaaaaaaaaaaaaaaaaaaaaaaaaaaaaaaaaaaaaaaaaaaaaaaaaa", true, 0, 0⟩)
              (fun _ => Except.ok ⟨some "Legal", some "General Contract", some 1, 0, 0⟩)
              (fun _ => Except.error "rate limit")
              (fun _ => Except.ok ())).events
      ∧ (∀ id, PEvent.deleteDoc id
          ∉ (process_document_pipeline "doc1" "task1"
              (fun _ => Except.ok ⟨"aaaaaaaaaaaaaaaaaaaaaaaaaaaaaaaaaaaaaaaaaaaaaaaaaaaaaaaaaaaaaaaaaaaaaaaaaaaaaaaaaaaaaaaaaaaaaaaaaaaaa", true, 0, 0⟩)
              (fun _ => Except.ok ⟨some "Legal", some "General Contract", some 1, 0, 0⟩)
              (fun _ => Except.error "rate limit")
              (fun _ => Except.ok ())).events)
      ∧ (∀ m r, PEvent.redisSet "task1" "FAILURE" m r
          ∉ (process_document_pipeline "doc1" "task1"
              (fun _ => Except.ok ⟨"aaaaaaaaaaaaaaaaaaaaaaaaaaaaaaaaaaaaaaaaaaaaaaaaaaaaaaaaaaaaaaaaaaaaaaaaaaaaaaaaaaaaaaaaaaaaaaaaaaaaa", true, 0, 0⟩)
              (fun _ => Except.ok ⟨some "Legal", some "General Contract", some 1, 0, 0⟩)
              (fun _ => Except.error "rate limit")
              (fun _ => Except.ok ())).events) :=
  c4_embed_exhaustion_is_non_fatal "doc1" "task1"
    (fun _ => Except.ok ⟨"aaaaaaaaaaaaaaaaaaaaaaaaaaaaaaaaaaaaaaaaaaaaaaaaaaaaaaaaaaaaaaaaaaaaaaaaaaaaaaaaaaaaaaaaaaaaaaaaaaaaa", true, 0, 0⟩)
    (fun _ => Except.ok ⟨some "Legal", some "General Contract", some 1, 0, 0⟩)
    (fun _ => Except.error "rate limit")
    (fun _ => Except.ok ())
    ⟨"aaaaaaaaaaaaaaaaaaaaaaaaaaaaaaaaaaaaaaaaaaaaaaaaaaaaaaaaaaaaaaaaaaaaaaaaaaaaaaaaaaaaaaaaaaaaaaaaaaaaa", true, 0, 0⟩
    ⟨some "Legal", some "General Contract", some 1, 0, 0⟩
    rfl rfl ⟨by decide, by decide⟩ rfl (fun _ => ⟨"rate limit", rfl⟩) rfl

lemma stepCall_notin_other_loop {β : Type u} (step_name nm : String)
    (hne : nm ≠ step_name) (oracle : Nat → Except String β)
    (remaining attempt k : Nat) :
    PEvent.stepCall nm k ∉ (step_loop step_name oracle attempt remaining).2 :=
  fun h => hne (stepCall_name_of_mem step_name oracle remaining attempt nm k h)

/-- C5: when the extracted content is at most 100 characters long
(this covers the empty string), the pipeline writes the PROCESSING
snapshot for step 3 with the skipping-embeddings message and never
invokes the Embed implementation; conversely Embed is only ever
invoked when the content is longer than 100 characters. -/
theorem c5_short_content_skips_embeddings (document_id task_id : String)
    (extract : Nat → Except String ExtractionResult)
    (classify : Nat → Except String ClassificationResult)
    (embed : Nat → Except String String)
    (db_write : Nat → Except String Unit)
    (er : ExtractionResult) (cr : ClassificationResult)
    (hext : (step_loop "extract" extract 0 MAX_RETRIES).1 = some er)
    (hsucc : er.success = true)
    (hcls : (step_loop "classify" classify 0 MAX_RETRIES).1 = some cr) :
    (er.content.length ≤ 100 →
      PEvent.redisSet task_id "PROCESSING" meta_skip_embed none
          ∈ (process_document_pipeline document_id task_id extract classify embed db_write).events
      ∧ ∀ k, PEvent.stepCall "embed" k
          ∉ (process_document_pipeline document_id task_id extract classify embed db_write).events)
    ∧ (∀ k, PEvent.stepCall "embed" k
        ∈ (process_document_pipeline document_id task_id extract classify embed db_write).events
        → 100 < er.content.length) := by
  have hlen := py_strip_length_le er.content
  have hsc_e := fun k => stepCall_notin_other_loop "extract" "embed" (by decide)
    extract MAX_RETRIES 0 k
  have hsc_c := fun k => stepCall_notin_other_loop "classify" "embed" (by decide)
    classify MAX_RETRIES 0 k
  have hsc_d := fun k => stepCall_notin_other_loop "db_write" "embed" (by decide)
    db_write MAX_RETRIES 0 k
  unfold process_document_pipeline
  rcases hE : step_loop "extract" extract 0 MAX_RETRIES with ⟨eo, eev⟩
  rw [hE] at hext hsc_e
  simp only at hext
  subst hext
  rcases hC : step_loop "classify" classify 0 MAX_RETRIES with ⟨co, cev⟩
  rw [hC] at hcls hsc_c
  simp only at hcls
  subst hcls
  simp only [hsucc, Bool.true_eq_false, if_false]
  by_cases hcond : er.content ≠ "" ∧ (py_strip er.content).length > 100
  · refine ⟨fun h100 => absurd h100 (by omega), fun k _ => by omega⟩
  · simp only [if_neg hcond]
    rcases hD : step_loop "db_write" db_write 0 MAX_RETRIES with ⟨dbo, dbev⟩
    rw [hD] at hsc_d
    have hnone : ∀ k, PEvent.stepCall "embed" k
        ∉ (match (dbo, dbev) with
          | (none, dbEv) =>
            fail_trace document_id task_id
              (state_events task_id "PROCESSING" meta_extract ++ eev
                ++ state_events task_id "PROCESSING" meta_classify ++ cev
                ++ state_events task_id "PROCESSING" meta_embed
                ++ ((none : Option String),
                    state_events task_id "PROCESSING" meta_skip_embed).2
                ++ state_events task_id "PROCESSING" meta_db ++ dbEv)
          | (some _, dbEv) =>
            ⟨Except.ok
              { document_id := document_id
                content := er.content
                category := cr.category.getD "Miscellaneous"
                subCategory := cr.subCategory.getD "General Contract"
                confidence := cr.confidence.getD (1/2)
                embedding := ((none : Option String),
                  state_events task_id "PROCESSING" meta_skip_embed).1
                input_tokens := er.input_tokens + cr.input_tokens
                output_tokens := er.output_tokens + cr.output_tokens },
              state_events task_id "PROCESSING" meta_extract ++ eev
                ++ state_events task_id "PROCESSING" meta_classify ++ cev
                ++ state_events task_id "PROCESSING" meta_embed
                ++ ((none : Option String),
                    state_events task_id "PROCESSING" meta_skip_embed).2
                ++ state_events task_id "PROCESSING" meta_db ++ dbEv
                ++ state_events task_id "PROCESSING" meta_final
                ++ [PEvent.sleepFor (1/2),
                    PEvent.redisSet task_id "SUCCESS" meta_success (some
                      { document_id := document_id
                        content := er.content
                        category := cr.category.getD "Miscellaneous"
                        subCategory := cr.subCategory.getD "General Contract"
                        confidence := cr.confidence.getD (1/2)
                        embedding := ((none : Option String),
                          state_events task_id "PROCESSING" meta_skip_embed).1
                        input_tokens := er.input_tokens + cr.input_tokens
                        output_tokens := er.output_tokens + cr.output_tokens })]⟩).events := by
      intro k h
      cases dbo with
      | none =>
        simp only [fail_trace, state_events, List.mem_append, List.mem_cons,
          List.mem_singleton, List.not_mem_nil, or_false] at h
        rcases h with ((((((h | h) | h) | h) | h) | h) | h) | h <;>
          first
            | (exact hsc_e k (by simpa using h))
            | (exact hsc_c k (by simpa using h))
            | (exact hsc_d k (by simpa using h))
            | simp_all
      | some u =>
        simp only [state_events, List.mem_append, List.mem_cons,
          List.mem_singleton, List.not_mem_nil, or_false] at h
        rcases h with ((((((((h | h) | h) | h) | h) | h) | h) | h) | h) | h <;>
          first
            | (exact hsc_e k (by simpa using h))
            | (exact hsc_c k (by simpa using h))
            | (exact hsc_d k (by simpa using h))
            | simp_all
    refine ⟨fun _ => ⟨?_, hnone⟩, fun k hk => absurd hk (hnone k)⟩
    cases dbo with
    | none => simp [fail_trace, state_events]
    | some u => simp [state_events]

/-- Witness for C5 at concrete oracles with two-character content. -/
theorem c5_short_content_skips_embeddings_witness :
    ((⟨"hi", true, 0, 0⟩ : ExtractionResult).content.length ≤ 100 →
      PEvent.redisSet "task1" "PROCESSING" meta_skip_embed none
          ∈ (process_document_pipeline "doc1" "task1"
              (fun _ => Except.ok ⟨"hi", true, 0, 0⟩)
              (fun _ => Except.ok ⟨some "Legal", some "General Contract", some 1, 0, 0⟩)
              (fun _ => Except.ok "emb")
              (fun _ => Except.ok ())).events
      ∧ ∀ k, PEvent.stepCall "embed" k
          ∉ (process_document_pipeline "doc1" "task1"
              (fun _ => Except.ok ⟨"hi", true, 0, 0⟩)
              (fun _ => Except.ok ⟨some "Legal", some "General Contract", some 1, 0, 0⟩)
              (fun _ => Except.ok "emb")
              (fun _ => Except.ok ())).events)
    ∧ (∀ k, PEvent.stepCall "embed" k
        ∈ (process_document_pipeline "doc1" "task1"
            (fun _ => Except.ok ⟨"hi", true, 0, 0⟩)
            (fun _ => Except.ok ⟨some "Legal", some "General Contract", some 1, 0, 0⟩)
            (fun _ => Except.ok "emb")
            (fun _ => Except.ok ())).events
        → 100 < (⟨"hi", true, 0, 0⟩ : ExtractionResult).content.length) :=
  c5_short_content_skips_embeddings "doc1" "task1"
    (fun _ => Except.ok ⟨"hi", true, 0, 0⟩)
    (fun _ => Except.ok ⟨some "Legal", some "General Contract", some 1, 0, 0⟩)
    (fun _ => Except.ok "emb")
    (fun _ => Except.ok ())
    ⟨"hi", true, 0, 0⟩
    ⟨some "Legal", some "General Contract", some 1, 0, 0⟩
    rfl rfl rfl

/-! ## Status multiplexer / Poller (`utils/websocket_handler.py`) -/

/-- `HEARTBEAT_INTERVAL` of the websocket handler, in seconds. -/
def HEARTBEAT_INTERVAL : ℚ := 3

/-- Python `str(x)` applied to `info.get("step", None)` inside the
f-string building the dedup key: `None` prints as `"None"`. -/
def py_str_opt_nat : Option Nat → String
  | none => "None"
  | some n => toString n

/-- Python `str(x)` applied to `info.get("message", None)`. -/
def py_str_opt_string : Option String → String
  | none => "None"
  | some s => s

/-- Dedup bookkeeping of a `TaskPoller`: `last_states` maps a task id
to the dedup key of the last sent update, `last_update_times` to its
send time (read with default 0, as `.get(task_id, 0)` in the source). -/
structure DedupState where
  last_states : String → Option String
  last_update_times : String → Option ℚ

/-- Point update of a dictionary modelled as a function. -/
def fun_update {γ : Type u} (f : String → γ) (key : String) (v : γ) : String → γ :=
  fun k => if k = key then v else f k

/-- `_should_send_update`: build the dedup key
`task_id ++ "_" ++ state ++ "_" ++ step ++ "_" ++ message`; send when
it differs from the last sent key for this task, or when the state is
PROCESSING and at least `HEARTBEAT_INTERVAL` elapsed since the last
send; on send, record the key and the send time. -/
def should_send_update (st : DedupState) (task_id state : String)
    (step : Option Nat) (message : Option String) (current_time : ℚ) :
    Bool × DedupState :=
  let last_state_key :=
    task_id ++ "_" ++ state ++ "_" ++ py_str_opt_nat step ++ "_" ++ py_str_opt_string message
  let last_update_time := (st.last_update_times task_id).getD 0
  let time_since_last_update := current_time - last_update_time
  let should_send :=
    (!(st.last_states task_id == some last_state_key))
      || ((state == "PROCESSING") && decide (HEARTBEAT_INTERVAL ≤ time_since_last_update))
  if should_send then
    (true,
      ⟨fun_update st.last_states task_id (some last_state_key),
       fun_update st.last_update_times task_id (some current_time)⟩)
  else (false, st)

/-- C3: after a tick at time `t1` that sent an update for a task, a
second tick at time `t2` observing the identical `(state, step,
message)` snapshot sends again exactly when the state is PROCESSING
and at least the heartbeat interval elapsed since the send at `t1`;
otherwise it sends nothing. -/
lemma should_send_update_fst (st : DedupState) (task_id state : String)
    (step : Option Nat) (message : Option String) (t : ℚ) :
    (should_send_update st task_id state step message t).1
      = ((!(st.last_states task_id ==
            some (task_id ++ "_" ++ state ++ "_" ++ py_str_opt_nat step ++ "_"
              ++ py_str_opt_string message)))
          || ((state == "PROCESSING")
            && decide (HEARTBEAT_INTERVAL
              ≤ t - (st.last_update_times task_id).getD 0))) := by
  simp only [should_send_update]
  split <;> simp_all

lemma should_send_update_snd_of_sent (st : DedupState) (task_id state : String)
    (step : Option Nat) (message : Option String) (t : ℚ)
    (h : (should_send_update st task_id state step message t).1 = true) :
    (should_send_update st task_id state step message t).2
      = ⟨fun_update st.last_states task_id
            (some (task_id ++ "_" ++ state ++ "_" ++ py_str_opt_nat step ++ "_"
              ++ py_str_opt_string message)),
         fun_update st.last_update_times task_id (some t)⟩ := by
  simp only [should_send_update] at h ⊢
  split at h
  · split <;> simp_all
  · simp at h

/-- C3: after a tick at time `t1` that sent an update for a task, a
second tick at time `t2` observing the identical `(state, step,
message)` snapshot sends again exactly when the state is PROCESSING
and at least the heartbeat interval elapsed since the send at `t1`;
otherwise it sends nothing. -/
theorem c3_dedup_with_heartbeat (st : DedupState) (task_id state : String)
    (step : Option Nat) (message : Option String) (t1 t2 : ℚ)
    (h1 : (should_send_update st task_id state step message t1).1 = true) :
    (should_send_update (should_send_update st task_id state step message t1).2
        task_id state step message t2).1
      = ((state == "PROCESSING") && decide (HEARTBEAT_INTERVAL ≤ t2 - t1)) := by
  rw [should_send_update_snd_of_sent st task_id state step message t1 h1,
    should_send_update_fst]
  simp [fun_update]

/-- Witness for C3: a first send at time 0, a second identical
snapshot at time 5 with state PROCESSING. -/
theorem c3_dedup_with_heartbeat_witness :
    (should_send_update
        (should_send_update ⟨fun _ => none, fun _ => none⟩ "t1" "PROCESSING"
          (some 2) (some "Classifying document...") 0).2
        "t1" "PROCESSING" (some 2) (some "Classifying document...") 5).1
      = (("PROCESSING" == "PROCESSING") && decide (HEARTBEAT_INTERVAL ≤ (5 : ℚ) - 0)) :=
  c3_dedup_with_heartbeat ⟨fun _ => none, fun _ => none⟩ "t1" "PROCESSING"
    (some 2) (some "Classifying document...") 0 5 (by decide)

/-- The generic error fallback of `poll_single_task`: on an unexpected
exception `e` while polling, the handler sends
`{task_id, state: FAILURE, error: str(e), message: failure}` out over
the websocket. -/
structure WsPayload where
  task_id : String
  state : Option String
  message : Option String
  step : Option Nat
  error : Option String
  deriving Repr, DecidableEq

/-- The payload built at the `except Exception` fallback of
`poll_single_task`, with `exception_text` standing for `str(e)`. -/
def poll_error_fallback_payload (task_id exception_text : String) : WsPayload :=
  { task_id := task_id
    state := some "FAILURE"
    message := some "failure"
    step := none
    error := some exception_text }

/-- C7 counterexample: the Poller's generic error fallback copies the
raw exception text into the outbound message's error field, so the
field depends on and contains the internal exception text. -/
theorem c7_raw_exception_text_leaks_counterexample :
    (poll_error_fallback_payload "t1" "KeyError: internal detail").error
        = some "KeyError: internal detail"
    ∧ (poll_error_fallback_payload "t1" "ValueError: other").error
        = some "ValueError: other"
    ∧ ("KeyError: internal detail" : String) ≠ "ValueError: other" :=
  ⟨rfl, rfl, by decide⟩

/-- The fixed metas of every State Store write the pipeline performs. -/
def stable_metas : List StateMeta :=
  [meta_extract, meta_classify, meta_embed, meta_skip_embed, meta_db,
   meta_final, meta_success, meta_failure]

/-- Stability of State Store writes: every Redis write in the trace
carries one of the fixed metas, none of which embeds exception text. -/
def stable_snapshots (evs : List PEvent) : Prop :=
  ∀ tid st m r, PEvent.redisSet tid st m r ∈ evs → m ∈ stable_metas

lemma stable_snapshots_append {a b : List PEvent}
    (ha : stable_snapshots a) (hb : stable_snapshots b) :
    stable_snapshots (a ++ b) := by
  intro tid st m r h
  rcases List.mem_append.mp h with h | h
  · exact ha tid st m r h
  · exact hb tid st m r h

lemma stable_snapshots_state_events (tid st : String) (m : StateMeta)
    (hm : m ∈ stable_metas) : stable_snapshots (state_events tid st m) := by
  intro tid2 st2 m2 r2 h
  simp only [state_events, List.mem_cons, List.not_mem_nil, or_false] at h
  rcases h with h | h
  · simp at h
  · rw [PEvent.redisSet.injEq] at h
    rw [h.2.2.1]
    exact hm

lemma stable_snapshots_step_loop {β : Type u} (step_name : String)
    (oracle : Nat → Except String β) (remaining attempt : Nat) :
    stable_snapshots (step_loop step_name oracle attempt remaining).2 :=
  fun tid st m r h =>
    absurd h (no_redisSet_in_step_loop step_name oracle remaining attempt tid st m r)

lemma stable_snapshots_fail_trace (document_id task_id : String)
    (evs : List PEvent) (h : stable_snapshots evs) :
    stable_snapshots (fail_trace document_id task_id evs).events := by
  intro tid st m r hmem
  simp only [fail_trace] at hmem
  rcases List.mem_append.mp hmem with hmem | hmem
  · exact h tid st m r hmem
  · simp only [state_events, List.mem_cons, List.not_mem_nil, or_false] at hmem
    rcases hmem with hmem | hmem | hmem
    · simp at hmem
    · simp at hmem
    · rw [PEvent.redisSet.injEq] at hmem
      rw [hmem.2.2.1]
      simp [stable_metas]

lemma stable_snapshots_success_tail (tid : String) (rd : ResultData) :
    stable_snapshots
      [PEvent.sleepFor (1/2), PEvent.redisSet tid "SUCCESS" meta_success (some rd)] := by
  intro tid2 st2 m2 r2 h
  simp only [List.mem_cons, List.not_mem_nil, or_false] at h
  rcases h with h | h
  · simp at h
  · rw [PEvent.redisSet.injEq] at h
    rw [h.2.2.1]
    simp [stable_metas]

/-- Every State Store write of any pipeline run, whatever the step
implementations do, uses one of the fixed metas. -/
lemma pipeline_stable_snapshots (document_id task_id : String)
    (extract : Nat → Except String ExtractionResult)
    (classify : Nat → Except String ClassificationResult)
    (embed : Nat → Except String String)
    (db_write : Nat → Except String Unit) :
    stable_snapshots
      (process_document_pipeline document_id task_id extract classify embed db_write).events := by
  have hse := stable_snapshots_step_loop "extract" extract MAX_RETRIES 0
  have hsc := stable_snapshots_step_loop "classify" classify MAX_RETRIES 0
  have hsm := stable_snapshots_step_loop "embed" embed MAX_RETRIES 0
  have hsd := stable_snapshots_step_loop "db_write" db_write MAX_RETRIES 0
  have hm1 := stable_snapshots_state_events task_id "PROCESSING" meta_extract (by simp [stable_metas])
  have hm2 := stable_snapshots_state_events task_id "PROCESSING" meta_classify (by simp [stable_metas])
  have hm3 := stable_snapshots_state_events task_id "PROCESSING" meta_embed (by simp [stable_metas])
  have hm3s := stable_snapshots_state_events task_id "PROCESSING" meta_skip_embed (by simp [stable_metas])
  have hm4 := stable_snapshots_state_events task_id "PROCESSING" meta_db (by simp [stable_metas])
  have hm5 := stable_snapshots_state_events task_id "PROCESSING" meta_final (by simp [stable_metas])
  unfold process_document_pipeline
  rcases hE : step_loop "extract" extract 0 MAX_RETRIES with ⟨eo, eev⟩
  rw [hE] at hse
  cases eo with
  | none => exact stable_snapshots_fail_trace _ _ _ (stable_snapshots_append hm1 hse)
  | some er =>
    by_cases hs : er.success = false
    · simp only [hs, if_true]
      exact stable_snapshots_fail_trace _ _ _ (stable_snapshots_append hm1 hse)
    · simp only [hs, if_false]
      rcases hC : step_loop "classify" classify 0 MAX_RETRIES with ⟨co, cev⟩
      rw [hC] at hsc
      cases co with
      | none =>
        exact stable_snapshots_fail_trace _ _ _
          (stable_snapshots_append (stable_snapshots_append
            (stable_snapshots_append hm1 hse) hm2) hsc)
      | some cr =>
        by_cases hcond : er.content ≠ "" ∧ (py_strip er.content).length > 100
        · simp only [if_pos hcond]
          rcases hEm : step_loop "embed" embed 0 MAX_RETRIES with ⟨emo, emev⟩
          rw [hEm] at hsm
          rcases hD : step_loop "db_write" db_write 0 MAX_RETRIES with ⟨dbo, dbev⟩
          rw [hD] at hsd
          cases dbo with
          | none =>
            exact stable_snapshots_fail_trace _ _ _
              (stable_snapshots_append (stable_snapshots_append (stable_snapshots_append
                (stable_snapshots_append (stable_snapshots_append (stable_snapshots_append
                  (stable_snapshots_append hm1 hse) hm2) hsc) hm3) hsm) hm4) hsd)
          | some u =>
            exact stable_snapshots_append (stable_snapshots_append (stable_snapshots_append
              (stable_snapshots_append (stable_snapshots_append (stable_snapshots_append
                (stable_snapshots_append (stable_snapshots_append
                  (stable_snapshots_append hm1 hse) hm2) hsc) hm3) hsm) hm4) hsd) hm5)
              (stable_snapshots_success_tail task_id _)
        · simp only [if_neg hcond]
          rcases hD : step_loop "db_write" db_write 0 MAX_RETRIES with ⟨dbo, dbev⟩
          rw [hD] at hsd
          cases dbo with
          | none =>
            exact stable_snapshots_fail_trace _ _ _
              (stable_snapshots_append (stable_snapshots_append (stable_snapshots_append
                (stable_snapshots_append (stable_snapshots_append (stable_snapshots_append
                  (stable_snapshots_append hm1 hse) hm2) hsc) hm3) hm3s) hm4) hsd)
          | some u =>
            exact stable_snapshots_append (stable_snapshots_append (stable_snapshots_append
              (stable_snapshots_append (stable_snapshots_append (stable_snapshots_append
                (stable_snapshots_append (stable_snapshots_append
                  (stable_snapshots_append hm1 hse) hm2) hsc) hm3) hm3s) hm4) hsd) hm5)
              (stable_snapshots_success_tail task_id _)

/-- C7 amended: every State Store snapshot the pipeline writes carries
one of the fixed constant metas, independent of any exception text;
the Poller's generic error fallback, by contrast, copies the raw
exception text into the outbound message's error field. -/
theorem c7_snapshots_stable_but_poller_fallback_leaks (document_id task_id : String)
    (extract : Nat → Except String ExtractionResult)
    (classify : Nat → Except String ClassificationResult)
    (embed : Nat → Except String String)
    (db_write : Nat → Except String Unit)
    (tid st : String) (m : StateMeta) (r : Option ResultData)
    (hmem : PEvent.redisSet tid st m r
      ∈ (process_document_pipeline document_id task_id extract classify embed db_write).events) :
    m ∈ stable_metas
    ∧ ∀ tid2 e, (poll_error_fallback_payload tid2 e).error = some e :=
  ⟨pipeline_stable_snapshots document_id task_id extract classify embed db_write
      tid st m r hmem,
   fun _ _ => rfl⟩

/-- Witness for the amended C7 at an all-successful concrete run. -/
theorem c7_snapshots_stable_but_poller_fallback_leaks_witness :
    meta_extract ∈ stable_metas
    ∧ ∀ tid2 e, (poll_error_fallback_payload tid2 e).error = some e :=
  c7_snapshots_stable_but_poller_fallback_leaks "doc1" "task1"
    (fun _ => Except.ok ⟨"hi", true, 0, 0⟩)
    (fun _ => Except.ok ⟨some "Legal", some "General Contract", some 1, 0, 0⟩)
    (fun _ => Except.ok "emb")
    (fun _ => Except.ok ())
    "task1" "PROCESSING" meta_extract none (by decide)

/-! ## State store client (`utils/redis_utils.py`) -/

/-- `get_task_state_key`. -/
def get_task_state_key (task_id : String) : String := "task:state:" ++ task_id

/-- Outcome of the backing-store `GET`: the stored string (or `none`
when the key is absent), or a raised exception with its text. -/
inductive ReadOutcome where
  | ok (value : Option String)
  | err (exception_text : String)
  deriving Repr, DecidableEq

/-- `get_task_state_from_redis`: read the value under the task state
key and parse it.  Returns `none` when the Redis library is
unavailable, the client cannot be created, the key is absent or holds
a falsy (empty) value, or parsing fails; the `except` clause catches
any raised read error, logs it, and falls through to `return None` as
well.  `parse` models `json.loads` (with `none` for a parse failure,
which the same `except` clause catches). -/
def get_task_state_from_redis {τ : Type u} (redis_available client_present : Bool)
    (read : String → ReadOutcome) (parse : String → Option τ)
    (task_id : String) : Option τ :=
  if redis_available = false then none
  else if client_present = false then none
  else
    match read (get_task_state_key task_id) with
    | ReadOutcome.err _ => none
    | ReadOutcome.ok none => none
    | ReadOutcome.ok (some state_json) =>
      if state_json = "" then none else parse state_json

/-- C6 counterexample: a failing backing-store read does not
propagate; it yields the same absence signal (`none`) as a missing
key, even when a stored value would have parsed successfully. -/
theorem c6_read_failure_becomes_absence_counterexample :
    get_task_state_from_redis (τ := Nat) true true
        (fun _ => ReadOutcome.err "ConnectionError: connection refused")
        (fun _ => some 7) "job1" = none
    ∧ get_task_state_from_redis (τ := Nat) true true
        (fun _ => ReadOutcome.ok none) (fun _ => some 7) "job1" = none
    ∧ get_task_state_from_redis (τ := Nat) true true
        (fun _ => ReadOutcome.ok (some "snapshot")) (fun _ => some 7) "job1" = some 7 :=
  ⟨rfl, rfl, by simp [get_task_state_from_redis]⟩

/-- C6 amended: with the library available and a client in hand, the
read returns the parse of exactly what the store holds under the
task's key, the absence signal when the key is missing, and — instead
of propagating — the absence signal when the backing read raises. -/
theorem c6_get_state_absence_on_read_failure {τ : Type u}
    (parse : String → Option τ) (task_id failure_text s : String) (t : τ)
    (hs : s ≠ "") (hp : parse s = some t) :
    get_task_state_from_redis true true
        (fun _ => ReadOutcome.err failure_text) parse task_id = none
    ∧ get_task_state_from_redis true true
        (fun _ => ReadOutcome.ok none) parse task_id = none
    ∧ get_task_state_from_redis true true
        (fun _ => ReadOutcome.ok (some s)) parse task_id = some t := by
  refine ⟨rfl, rfl, ?_⟩
  simp [get_task_state_from_redis, hs, hp]

/-- Witness for the amended C6 at a concrete store and parser. -/
theorem c6_get_state_absence_on_read_failure_witness :
    get_task_state_from_redis true true
        (fun _ => ReadOutcome.err "boom") (fun _ => some 42) "job1" = none
    ∧ get_task_state_from_redis true true
        (fun _ => ReadOutcome.ok none) (fun _ => some 42) "job1" = none
    ∧ get_task_state_from_redis true true
        (fun _ => ReadOutcome.ok (some "x")) (fun _ => some 42) "job1" = some 42 :=
  c6_get_state_absence_on_read_failure (fun _ => some 42) "job1" "boom" "x" 42
    (by decide) rfl

/-! ## Inbound control messages (`handle_message`) -/

/-- Subscription state of a `TaskPoller` that `handle_message`
mutates: the set of subscribed task ids and the per-task dedup
bookkeeping. -/
structure SubscriptionState where
  subscribed_tasks : Finset String
  dedup : DedupState

/-- `handle_message`: `action` defaults to `"subscribe"` when absent;
subscribe and update add the listed ids to the subscription set;
unsubscribe removes them and clears their dedup entries; any other
action leaves the state unchanged. -/
def handle_message (st : SubscriptionState) (action : Option String)
    (task_ids : List String) : SubscriptionState :=
  let a := action.getD "subscribe"
  if a = "subscribe" then
    { st with subscribed_tasks := st.subscribed_tasks ∪ task_ids.toFinset }
  else if a = "unsubscribe" then
    { subscribed_tasks := st.subscribed_tasks \ task_ids.toFinset
      dedup :=
        ⟨fun t => if t ∈ task_ids then none else st.dedup.last_states t,
         fun t => if t ∈ task_ids then none else st.dedup.last_update_times t⟩ }
  else if a = "update" then
    { st with subscribed_tasks := st.subscribed_tasks ∪ task_ids.toFinset }
  else st

/-- C10: an `update` control message is handled exactly like
`subscribe` (and never drops an already-subscribed id absent from the
list), a message without an action field is treated as `subscribe`,
and an unrecognized action leaves the state unchanged. -/
theorem c10_update_acts_like_subscribe (st : SubscriptionState)
    (task_ids : List String) (a : String)
    (ha : a ≠ "subscribe" ∧ a ≠ "unsubscribe" ∧ a ≠ "update") :
    handle_message st (some "update") task_ids
        = handle_message st (some "subscribe") task_ids
    ∧ (∀ t ∈ st.subscribed_tasks,
        t ∈ (handle_message st (some "update") task_ids).subscribed_tasks)
    ∧ handle_message st none task_ids = handle_message st (some "subscribe") task_ids
    ∧ handle_message st (some a) task_ids = st := by
  refine ⟨by simp [handle_message], ?_, by simp [handle_message], ?_⟩
  · intro t ht
    simp [handle_message]
    exact Or.inl ht
  · simp only [handle_message, Option.getD_some]
    rw [if_neg ha.1, if_neg ha.2.1, if_neg ha.2.2]

/-- Witness for C10 at a concrete state and an unrecognized action. -/
theorem c10_update_acts_like_subscribe_witness :
    handle_message ⟨{"t0"}, ⟨fun _ => none, fun _ => none⟩⟩ (some "update") ["t1", "t2"]
        = handle_message ⟨{"t0"}, ⟨fun _ => none, fun _ => none⟩⟩ (some "subscribe") ["t1", "t2"]
    ∧ (∀ t ∈ (⟨{"t0"}, ⟨fun _ => none, fun _ => none⟩⟩ : SubscriptionState).subscribed_tasks,
        t ∈ (handle_message ⟨{"t0"}, ⟨fun _ => none, fun _ => none⟩⟩
          (some "update") ["t1", "t2"]).subscribed_tasks)
    ∧ handle_message ⟨{"t0"}, ⟨fun _ => none, fun _ => none⟩⟩ none ["t1", "t2"]
        = handle_message ⟨{"t0"}, ⟨fun _ => none, fun _ => none⟩⟩ (some "subscribe") ["t1", "t2"]
    ∧ handle_message ⟨{"t0"}, ⟨fun _ => none, fun _ => none⟩⟩ (some "refresh") ["t1", "t2"]
        = ⟨{"t0"}, ⟨fun _ => none, fun _ => none⟩⟩ :=
  c10_update_acts_like_subscribe ⟨{"t0"}, ⟨fun _ => none, fun _ => none⟩⟩ ["t1", "t2"]
    "refresh" ⟨by decide, by decide, by decide⟩

end DocumentsApi
